import Mathlib

/-!
Verification of the `deploy_sql` generators and the notebook helper classes
of the project template repository.

The repository contains two generator scripts that build a `deploy.sql`
deployment plan from environment configuration and a scanned file tree:

* `{{cookiecutter.repo_name}}/00snowflake/deploy_sql.py` (the "Snow" variant):
  discovers `*.ipynb` notebooks under the working tree and `streamlit_app.py`
  apps under a `streamlit` root, deploying Dockerized apps as container
  services and non-Dockerized, non-empty apps as native Streamlit apps.
* `{{cookiecutter.repo_name}}/deploy/deploy_sql.py` (the "Deploy" variant):
  emits fixed workspace setup lines, discovers `main.py` apps under an `apps`
  root (container services only, no native fallback), and renders a hardcoded
  list of EXECUTE NOTEBOOK PROJECT statements.

It also contains `notebooks/shared/mdt_environment.py` (environment
detection) and `notebooks/shared/mdt_snowpark.py` (session/connection
parameter handling), modelled at the end of the definitions section.

Python strings are modelled as `String`, the OS environment as
`String → Option String`, the scanned tree as explicit lists of directory
entries, and Python dictionaries (for `mdt_snowpark`) as ordered association
lists with Python `dict` semantics for lookup and update.
-/

/-- The deployment context: all environment-sourced configuration values read
by the two generator scripts (`database`, `schema`, ..., plus the optional
container-service fields, which default to `""` like Python
`os.environ.get(name, '')`). -/
structure Ctx where
  database : String
  schema : String
  repoName : String
  branch : String
  warehouse : String
  utilityDb : String
  gitSchema : String
  workspaceOwner : String
  computePool : String
  minInstances : String
  maxInstances : String
  imageRepo : String
deriving DecidableEq, Repr

/-- One directory visited by `os.walk` under the app root (`apps` resp.
`streamlit`). `relToRoot` is `os.path.relpath(dirpath, app_root)` (so `"."`
for the root itself), `relToCwd` is `os.path.relpath(dirpath, '.')`,
`files` is the filename list of the directory, and `entrySize` is
`os.path.getsize` of the app entry file in this directory. -/
structure DirEntry where
  relToRoot : String
  relToCwd : String
  files : List String
  entrySize : Nat
deriving DecidableEq, Repr

/-- The app root as seen by the scripts: `rootExists` models
`os.path.exists(app_root)`; `walk` is the `os.walk` sequence when it does. -/
structure AppTree where
  rootExists : Bool
  walk : List DirEntry
deriving DecidableEq, Repr

/-- One directory visited by `os.walk('..')` in the Snow variant's notebook
scan: its path relative to the working directory and its filename list. -/
structure NbEntry where
  relToCwd : String
  files : List String
deriving DecidableEq, Repr

/-- Python `str.upper()` (character-wise ASCII uppercasing). -/
def pyUpper (s : String) : String := ⟨s.data.map Char.toUpper⟩

/-- Python `str.lower()` (character-wise ASCII lowercasing). -/
def pyLower (s : String) : String := ⟨s.data.map Char.toLower⟩

/-- Python `str.replace(os.sep, '_')` for the single-character POSIX path
separator: replace every `/` by `_`. -/
def sepToUnderscore (s : String) : String :=
  ⟨s.data.map (fun c => if c = '/' then '_' else c)⟩

/-- Python `str.endswith(suffix)`. -/
def strEndsWith (s suffix : String) : Bool := suffix.data.isSuffixOf s.data

/-- `app_name` derivation, shared verbatim by both scripts: if the directory
is the app-family root (`relpath` is `"."`), `UPPER(repo_branch)`, otherwise
`UPPER(repo_branch_subfolder)` with path separators replaced by `_`. -/
def appName (repoName branch relToRoot : String) : String :=
  if relToRoot = "." then
    pyUpper (repoName ++ "_" ++ branch)
  else
    pyUpper (repoName ++ "_" ++ branch ++ "_" ++ sepToUnderscore relToRoot)

/-- `DROP SERVICE IF EXISTS "db"."schema"."service";` — first statement of a
container-service deployment, identical in both scripts. -/
def dropServiceStmt (ctx : Ctx) (serviceName : String) : String :=
  "DROP SERVICE IF EXISTS \"" ++ ctx.database ++ "\".\"" ++ ctx.schema ++
    "\".\"" ++ serviceName ++ "\";"

/-- `image_path = f'/{database}/IMAGE_REPO/{image_repo}/{image_name}:latest'`. -/
def imagePath (ctx : Ctx) (imageName : String) : String :=
  "/" ++ ctx.database ++ "/IMAGE_REPO/" ++ ctx.imageRepo ++ "/" ++ imageName ++ ":latest"

/-- Text of the CREATE SERVICE template before the interpolated image path. -/
def csPart1 (ctx : Ctx) (serviceName : String) : String :=
  "\n-- Container Service: " ++ serviceName ++ "\nCREATE SERVICE \"" ++
    ctx.database ++ "\".\"" ++ ctx.schema ++ "\".\"" ++ serviceName ++
    "\"\n  IN COMPUTE POOL " ++ ctx.computePool ++
    "\n  FROM SPECIFICATION $$\nspec:\n  containers:\n    - name: app\n      image: "

/-- Text of the CREATE SERVICE template after the interpolated image path:
warehouse env var, exposed endpoint on port 8501 with `public: true`, the
`GR_AI_ENGINEER` service-role endpoint grant, and the instance/warehouse
parameters. -/
def csPart2 (ctx : Ctx) : String :=
  "\n      env:\n        SNOWFLAKE_WAREHOUSE: " ++ ctx.warehouse ++
    "\n  endpoints:\n    - name: app\n      port: 8501\n      public: true\nserviceRoles:\n  - name: GR_AI_ENGINEER\n    endpoints:\n      - app\n$$\n  MIN_INSTANCES=" ++
    ctx.minInstances ++ "\n  MAX_INSTANCES=" ++ ctx.maxInstances ++
    "\n  QUERY_WAREHOUSE=" ++ ctx.warehouse ++ ";\n"

/-- The full CREATE SERVICE statement, identical in both scripts. -/
def createServiceStmt (ctx : Ctx) (serviceName imageName : String) : String :=
  csPart1 ctx serviceName ++ imagePath ctx imageName ++ csPart2 ctx

/-- `full_repo_path` of the Snow variant:
`@"utility_db"."git_schema"."repo"/branches/branch/relative_path/`. -/
def fullRepoPath (ctx : Ctx) (relToCwd : String) : String :=
  "@\"" ++ ctx.utilityDb ++ "\".\"" ++ ctx.gitSchema ++ "\".\"" ++ ctx.repoName ++
    "\"/branches/" ++ ctx.branch ++ "/" ++ relToCwd ++ "/"

/-- The native Streamlit app statement of the Snow variant. -/
def streamlitStmt (ctx : Ctx) (relToCwd name : String) : String :=
  "\nCREATE OR REPLACE STREAMLIT IDENTIFIER(\x27\"" ++ ctx.database ++ "\".\"" ++
    ctx.schema ++ "\".\"" ++ name ++ "\"\x27)\nFROM " ++ fullRepoPath ctx relToCwd ++
    "\nMAIN_FILE = \x27streamlit_app.py\x27\nQUERY_WAREHOUSE = \x27" ++ ctx.warehouse ++
    "\x27\n;\n"

/-- Inner loop body of the Deploy variant's app scan: a filename contributes
statements only when it is `main.py`; the directory is deployed as a container
service only when a sibling `Dockerfile` exists and both `COMPUTE_POOL` and
`IMAGE_REPO_NAME` are non-empty (Python truthiness of the strings); there is
no native fallback branch in this script. -/
def deployFileStmts (ctx : Ctx) (e : DirEntry) (filename : String) : List String :=
  if filename = "main.py" then
    if e.files.contains "Dockerfile" ∧ ctx.computePool ≠ "" ∧ ctx.imageRepo ≠ "" then
      [dropServiceStmt ctx (appName ctx.repoName ctx.branch e.relToRoot ++ "_SERVICE"),
       createServiceStmt ctx (appName ctx.repoName ctx.branch e.relToRoot ++ "_SERVICE")
         (pyLower (appName ctx.repoName ctx.branch e.relToRoot) ++ "_image")]
    else []
  else []

/-- Inner loop body of the Snow variant's app scan: a filename contributes
statements only when it is `streamlit_app.py`; Dockerized apps (with both
container env vars set) become container services, otherwise a non-empty
entry file becomes a native Streamlit app and a zero-byte one is skipped. -/
def snowFileStmts (ctx : Ctx) (e : DirEntry) (filename : String) : List String :=
  if filename = "streamlit_app.py" then
    if e.files.contains "Dockerfile" ∧ ctx.computePool ≠ "" ∧ ctx.imageRepo ≠ "" then
      [dropServiceStmt ctx (appName ctx.repoName ctx.branch e.relToRoot ++ "_SERVICE"),
       createServiceStmt ctx (appName ctx.repoName ctx.branch e.relToRoot ++ "_SERVICE")
         (pyLower (appName ctx.repoName ctx.branch e.relToRoot) ++ "_image")]
    else if 0 < e.entrySize then
      [streamlitStmt ctx e.relToCwd (appName ctx.repoName ctx.branch e.relToRoot)]
    else []
  else []

/-- Statements contributed by one visited directory (inner filename loop). -/
def dirStmts (perFile : DirEntry → String → List String) (e : DirEntry) : List String :=
  e.files.foldr (fun fn acc => perFile e fn ++ acc) []

/-- Statements contributed by the whole app scan: nothing when the app root
does not exist, otherwise the per-directory statements in walk order. -/
def appScanStmts (perFile : DirEntry → String → List String) (t : AppTree) : List String :=
  if t.rootExists then t.walk.foldr (fun e acc => dirStmts perFile e ++ acc) [] else []

/-- `use_lines` of the Snow variant: the four setup statements. -/
def snowUseLines (ctx : Ctx) : List String :=
  ["USE DATABASE " ++ ctx.database ++ ";\n",
   "CREATE SCHEMA IF NOT EXISTS " ++ ctx.schema ++ ";\n",
   "GRANT ALL PRIVILEGES ON SCHEMA " ++ ctx.database ++ "." ++ ctx.schema ++
     " TO ROLE GR_AI_ENGINEER;\n",
   "USE SCHEMA " ++ ctx.schema ++ ";\n\n"]

/-- `workspace_url` of the Deploy variant. -/
def workspaceUrl (ctx : Ctx) : String :=
  "snow://workspace/USER$" ++ ctx.workspaceOwner ++ ".PUBLIC." ++ ctx.repoName ++
    "/versions/head/"

/-- `use_lines` of the Deploy variant: the four setup statements plus the
workspace-sourced NOTEBOOK PROJECT creation. -/
def deployUseLines (ctx : Ctx) : List String :=
  ["USE DATABASE " ++ ctx.database ++ ";\n",
   "CREATE SCHEMA IF NOT EXISTS " ++ ctx.schema ++ ";\n",
   "GRANT ALL PRIVILEGES ON SCHEMA " ++ ctx.database ++ "." ++ ctx.schema ++
     " TO ROLE GR_AI_ENGINEER;\n",
   "USE SCHEMA " ++ ctx.schema ++ ";\n\n",
   "CREATE OR REPLACE NOTEBOOK PROJECT " ++ ctx.database ++ "." ++ ctx.schema ++
     "." ++ ctx.repoName ++ "\n",
   "  FROM \x27" ++ workspaceUrl ctx ++ "\x27;\n"]

/-- `os.path.splitext(file)[0]` for a file that ends in `.ipynb`. -/
def fileStem (file : String) : String := file.dropRight 6

/-- The CREATE OR REPLACE NOTEBOOK statement of the Snow variant. -/
def nbCreateStmt (ctx : Ctx) (relToCwd file : String) : String :=
  "\nCREATE OR REPLACE NOTEBOOK IDENTIFIER(\x27\"" ++ ctx.database ++ "\".\"" ++
    ctx.schema ++ "\".\"" ++ fileStem file ++ "\"\x27)\nFROM " ++
    fullRepoPath ctx relToCwd ++ "\nWAREHOUSE = \x27" ++ ctx.warehouse ++
    "\x27\nQUERY_WAREHOUSE = \x27" ++ ctx.warehouse ++
    "\x27\nRUNTIME_NAME = \x27SYSTEM$WAREHOUSE_RUNTIME\x27\nMAIN_FILE = \x27" ++
    file ++ "\x27\n;\n"

/-- The ALTER NOTEBOOK ... ADD LIVE VERSION statement of the Snow variant
(the source's template ends in `;` followed by eight spaces and a newline). -/
def nbAlterStmt (ctx : Ctx) (file : String) : String :=
  "\nALTER NOTEBOOK \"" ++ ctx.database ++ "\".\"" ++ ctx.schema ++ "\".\"" ++
    fileStem file ++ "\" ADD LIVE VERSION FROM LAST\n;        \n"

/-- Inner loop body of the Snow variant's notebook scan: every `*.ipynb` file
contributes a create statement and a live-version alter statement. -/
def snowNbFileStmts (ctx : Ctx) (e : NbEntry) (file : String) : List String :=
  if strEndsWith file ".ipynb" then
    [nbCreateStmt ctx e.relToCwd file, nbAlterStmt ctx file]
  else []

/-- Statements of the Snow variant's notebook scan over `os.walk('..')`. -/
def snowNbStmts (ctx : Ctx) (nbWalk : List NbEntry) : List String :=
  nbWalk.foldr (fun e acc => e.files.foldr (fun f a => snowNbFileStmts ctx e f ++ a) [] ++ acc) []

/-- The whole plan built by the Snow variant (`deploy_lines` at write time):
setup lines, then notebook statements, then app statements.  Its
execute-notebook section is commented out in the source and contributes
nothing. -/
def snowGenerate (ctx : Ctx) (nbWalk : List NbEntry) (apps : AppTree) : List String :=
  snowUseLines ctx ++ snowNbStmts ctx nbWalk ++ appScanStmts (snowFileStmts ctx) apps

/-- Python `', '.join(parts)`. -/
def pyJoin (sep : String) : List String → String
  | [] => ""
  | [x] => x
  | x :: y :: xs => x ++ sep ++ pyJoin sep (y :: xs)

/-- `eai_str`: the EXTERNAL_ACCESS_INTEGRATIONS clause, empty text when the
integration list is empty (Python truthiness of the list). -/
def eaiClause (eaiList : List String) : String :=
  if eaiList = [] then ""
  else
    "  EXTERNAL_ACCESS_INTEGRATIONS = (" ++
      pyJoin ", " (eaiList.map (fun e => "\x27" ++ e ++ "\x27")) ++ ")\n"

/-- `args_str`: the ARGUMENTS clause, empty text when the argument string is
empty (Python truthiness of the string). -/
def argsClause (arguments : String) : String :=
  if arguments = "" then ""
  else "  ARGUMENTS = \x27" ++ arguments ++ "\x27\n"

/-- The fixed part of an EXECUTE NOTEBOOK PROJECT statement, before the
optional clauses. -/
def executeBody (ctx : Ctx) (notebookFile cp runtime : String) : String :=
  "\nEXECUTE NOTEBOOK PROJECT " ++ ctx.database ++ "." ++ ctx.schema ++ "." ++
    ctx.repoName ++ "\n  MAIN_FILE = \x27" ++ notebookFile ++
    "\x27\n  COMPUTE_POOL = \x27" ++ cp ++ "\x27\n  RUNTIME = \x27" ++ runtime ++
    "\x27\n  QUERY_WAREHOUSE = \x27" ++ ctx.warehouse ++ "\x27\n"

/-- One rendered EXECUTE NOTEBOOK PROJECT statement (loop body of the Deploy
variant's execute section). -/
def renderExecute (ctx : Ctx) (notebookFile cp runtime : String)
    (eaiList : List String) (arguments : String) : String :=
  executeBody ctx notebookFile cp runtime ++ eaiClause eaiList ++
    argsClause arguments ++ ";\n"

/-- The argument string configured for both entries of the Deploy variant's
`execute_list`. -/
def defaultArgs (ctx : Ctx) : String :=
  "--database=\"" ++ ctx.database ++ "\" --schema=\"" ++ ctx.schema ++ "\""

/-- The statements rendered from the Deploy variant's hardcoded
`execute_list` (two entries, `NOTEBOOK1` and `NOTEBOOK2`). -/
def deployExecuteStmts (ctx : Ctx) : List String :=
  [renderExecute ctx "notebooks/NOTEBOOK1.ipynb" ctx.computePool "V2.2-CPU-PY3.11"
     ["EXT_XS_INT_PYPI"] (defaultArgs ctx),
   renderExecute ctx "notebooks/NOTEBOOK2.ipynb" ctx.computePool "V2.2-CPU-PY3.11"
     ["EXT_XS_INT_PYPI"] (defaultArgs ctx)]

/-- The whole plan built by the Deploy variant (`deploy_lines` at write
time): setup lines, then app statements, then the execute statements. -/
def deployGenerate (ctx : Ctx) (apps : AppTree) : List String :=
  deployUseLines ctx ++ appScanStmts (deployFileStmts ctx) apps ++ deployExecuteStmts ctx

/-- `os.environ[name]` as an `Except`: a missing mandatory variable raises
`KeyError` and terminates the script. -/
def requireVar (env : String → Option String) (name : String) : Except String String :=
  match env name with
  | some v => Except.ok v
  | none => Except.error ("KeyError: " ++ name)

/-- The environment-reading prologue of the Deploy variant: the five
mandatory variables in source order (each read raises `KeyError` on absence,
before any directory scanning), then the optional ones with their defaults. -/
def buildDeployCtx (env : String → Option String) : Except String Ctx := do
  let database ← requireVar env "DEPLOY_DB"
  let schema ← requireVar env "DEPLOY_SCHEMA"
  let repoName ← requireVar env "REPO_NAME"
  let branch ← requireVar env "BUILD_SOURCEBRANCHNAME"
  let warehouse ← requireVar env "WAREHOUSE"
  return ⟨database, schema, repoName, branch, warehouse, "", "",
     (env "WORKSPACE_OWNER").getD "USER$",
     (env "COMPUTE_POOL").getD "",
     (env "MIN_INSTANCES").getD "1",
     (env "MAX_INSTANCES").getD "1",
     (env "IMAGE_REPO_NAME").getD ""⟩

/-- The Deploy variant script end to end: environment prologue first, then
scanning and rendering. The `Except.ok` payload is the content written to
`deploy.sql`; on `Except.error` the script dies without writing any output. -/
def runDeploy (env : String → Option String) (apps : AppTree) : Except String (List String) := do
  let ctx ← buildDeployCtx env
  return deployGenerate ctx apps

/-- The environment-reading prologue of the Snow variant: seven mandatory
variables in source order (the same first five, then `UTILITY_DB` and
`GIT_SCHEMA`), then the optional ones. -/
def buildSnowCtx (env : String → Option String) : Except String Ctx := do
  let database ← requireVar env "DEPLOY_DB"
  let schema ← requireVar env "DEPLOY_SCHEMA"
  let repoName ← requireVar env "REPO_NAME"
  let branch ← requireVar env "BUILD_SOURCEBRANCHNAME"
  let warehouse ← requireVar env "WAREHOUSE"
  let utilityDb ← requireVar env "UTILITY_DB"
  let gitSchema ← requireVar env "GIT_SCHEMA"
  return ⟨database, schema, repoName, branch, warehouse, utilityDb, gitSchema, "",
     (env "COMPUTE_POOL").getD "",
     (env "MIN_INSTANCES").getD "1",
     (env "MAX_INSTANCES").getD "1",
     (env "IMAGE_REPO_NAME").getD ""⟩

/-- The Snow variant script end to end. -/
def runSnow (env : String → Option String) (nbWalk : List NbEntry) (apps : AppTree) :
    Except String (List String) := do
  let ctx ← buildSnowCtx env
  return snowGenerate ctx nbWalk apps

/-!
`notebooks/shared/mdt_snowpark.py` — connection-parameter merging.

Python dictionaries are modelled as ordered association lists: `dictGet` is
subscript lookup, `dictInsert` is single-key assignment (overwrite in place
if the key exists, else append), `dictUpdate` is `dict.update`, assigning
every pair of the argument in order.
-/

/-- `d[k]` as an `Option`: the value of the first (and in a well-formed dict,
only) entry whose key is `k`. -/
def dictGet : List (String × String) → String → Option String
  | [], _ => none
  | p :: ps, k => if p.1 = k then some p.2 else dictGet ps k

/-- `k in d.keys()`. -/
def hasKey : List (String × String) → String → Bool
  | [], _ => false
  | p :: ps, k => if p.1 = k then true else hasKey ps k

/-- `d[k] = v`: overwrite in place when the key is present, append otherwise. -/
def dictInsert (d : List (String × String)) (k v : String) : List (String × String) :=
  if hasKey d k then
    d.map (fun p => if p.1 = k then (k, v) else p)
  else d ++ [(k, v)]

/-- `d.update(u)`: assign every pair of `u`, in iteration order. -/
def dictUpdate : List (String × String) → List (String × String) → List (String × String)
  | d, [] => d
  | d, p :: ps => dictUpdate (dictInsert d p.1 p.2) ps

/-- The merge performed by `MdtSnowPark.get_session` when `load_from_env` is
true: `connection_parameters.update({key: value for key, value in env_params
if not key in connection_parameters.keys()})` — the comprehension filters the
environment-derived parameters against the caller's keys first, then the
update is applied. -/
def mergeEnvParams (connection_parameters env_params : List (String × String)) :
    List (String × String) :=
  dictUpdate connection_parameters
    (env_params.filter (fun p => !(hasKey connection_parameters p.1)))

/-!
`notebooks/shared/mdt_environment.py` — environment detection.

The ambient system state queried by `MdtEnvironment` is modelled explicitly:
the OS environment, existence of the SPCS session-token file, `sys.path`,
and `platform.node()`.
-/

/-- Ambient state read by `MdtEnvironment`'s static methods. -/
structure SysState where
  env : String → Option String
  tokenFileExists : Bool
  sysPath : List String
  platformNode : String

/-- `on_snowflake_container`: token file present or any SPCS variable set. -/
def onSnowflakeContainer (s : SysState) : Bool :=
  s.tokenFileExists || (s.env "SPCS_CONTAINER_ID").isSome ||
    (s.env "SPCS_POD_NAME").isSome || (s.env "SPCS_POD_NAMESPACE").isSome

/-- `on_snowflake_warehouse`: a `udf` user variable or the `PYTHON-UDF`
platform node. -/
def onSnowflakeWarehouse (s : SysState) : Bool :=
  (s.env "USER" == some "udf") || (s.env "LOGNAME" == some "udf") ||
    (s.env "HOME" == some "udf") || (s.platformNode == "PYTHON-UDF")

/-- `on_databricks`: the body is a bare `pass`, so the Python function
returns `None` whatever the state. -/
def onDatabricks (_ : SysState) : Option Bool := none

/-- Python truthiness of an `Optional[bool]`: `None` is falsy. -/
def pyTruthy : Option Bool → Bool
  | none => false
  | some b => b

/-- `MdtEnvironment.detect_environment`, branch for branch. -/
def detectEnvironment (s : SysState) : String :=
  if onSnowflakeContainer s then
    if s.env "OBJECT_DOMAIN" == some "NOTEBOOK" then "snowflake_container_runtime"
    else "snowflake_container_services"
  else if onSnowflakeWarehouse s then
    if s.sysPath.contains "/tmp/appRoot/streamlit_app.py" then "snowflake_warehouse_streamlit"
    else "snowflake_warehouse"
  else if pyTruthy (onDatabricks s) then "databricks"
  else "local"

/-!
Concrete instances used to evaluate the model on explicit inputs.
-/

/-- A fully configured context as the Deploy variant builds it (its `Ctx` has
empty `utilityDb`/`gitSchema` because that script never reads them). -/
def ctxD : Ctx := ⟨"DB", "SC", "repo", "main", "WH", "", "", "OWN", "CP", "1", "1", "IR"⟩

/-- `ctxD` with `IMAGE_REPO_NAME` unset (defaulting to the empty string). -/
def ctxNR : Ctx := ⟨"DB", "SC", "repo", "main", "WH", "", "", "OWN", "CP", "1", "1", ""⟩

/-- A fully configured context for the Snow variant. -/
def ctxS : Ctx := ⟨"DB", "SC", "repo", "main", "WH", "UDB", "GS", "", "CP", "1", "1", "IR"⟩

/-- `ctxS` with `IMAGE_REPO_NAME` unset (defaulting to the empty string). -/
def ctxSNR : Ctx := ⟨"DB", "SC", "repo", "main", "WH", "UDB", "GS", "", "CP", "1", "1", ""⟩

/-- An environment holding exactly the variables of `ctxD` (`MIN_INSTANCES`
and `MAX_INSTANCES` are left unset and default to `"1"`). -/
def envD : String → Option String := fun n =>
  if n = "DEPLOY_DB" then some "DB"
  else if n = "DEPLOY_SCHEMA" then some "SC"
  else if n = "REPO_NAME" then some "repo"
  else if n = "BUILD_SOURCEBRANCHNAME" then some "main"
  else if n = "WAREHOUSE" then some "WH"
  else if n = "WORKSPACE_OWNER" then some "OWN"
  else if n = "COMPUTE_POOL" then some "CP"
  else if n = "IMAGE_REPO_NAME" then some "IR"
  else none

/-- An entirely empty environment. -/
def envNone : String → Option String := fun _ => none

/-- A Dockerized app directory at `a/b` (subfolder part normalizes to `a_b`). -/
def entryAB : DirEntry := ⟨"a/b", "apps/a/b", ["main.py", "Dockerfile"], 3⟩

/-- A Dockerized app directory at `a_b` — a distinct path whose
post-normalization name collides with `entryAB`'s. -/
def entryA_B : DirEntry := ⟨"a_b", "apps/a_b", ["main.py", "Dockerfile"], 3⟩

/-- An app tree whose two directories `a/b` and `a_b` both normalize to the
subfolder part `a_b`, so both resolve to the identifier `REPO_MAIN_A_B`. -/
def treeCollide : AppTree := ⟨true, [entryAB, entryA_B]⟩

/-- A single Dockerized app directory with a non-empty entry file. -/
def entryD : DirEntry := ⟨"svc", "apps/svc", ["main.py", "Dockerfile"], 5⟩

/-- An app tree containing only `entryD`. -/
def treeD : AppTree := ⟨true, [entryD]⟩

/-- A missing app root: no artifacts of this family. -/
def emptyTree : AppTree := ⟨false, []⟩

/-- A zero-byte entry file with no container descriptor. -/
def entryZero : DirEntry := ⟨"svc", "streamlit/svc", ["streamlit_app.py"], 0⟩

/-- Caller-supplied connection parameters for the `get_session` example. -/
def callerParams : List (String × String) := [("user", "caller")]

/-- Environment-derived connection parameters that both overlap and extend
the caller's. -/
def envParams : List (String × String) := [("user", "envuser"), ("host", "h")]

/-- A system state that is neither a Snowflake container nor warehouse. -/
def plainState : SysState := ⟨fun _ => none, false, [], "laptop"⟩

/-!
Helper lemmas.
-/

theorem except_bind_error {ε α β : Type} (e : ε) (f : α → Except ε β) :
    (Except.error e >>= f : Except ε β) = Except.error e := rfl

theorem except_bind_ok {ε α β : Type} (a : α) (f : α → Except ε β) :
    (Except.ok a >>= f : Except ε β) = f a := rfl

theorem dictGet_map_ne (k v q : String) (h : k ≠ q) :
    ∀ d : List (String × String),
      dictGet (d.map (fun p => if p.1 = k then (k, v) else p)) q = dictGet d q := by
  intro d
  induction d with
  | nil => rfl
  | cons p ps ih =>
    by_cases hp : p.1 = k
    · have hpq : p.1 ≠ q := by rw [hp]; exact h
      simp [dictGet, hp, hpq, h, ih]
    · by_cases hq : p.1 = q
      · simp [dictGet, hp, hq, Ne.symm h, ih]
      · simp [dictGet, hp, hq, ih]

theorem dictGet_append_single_ne (k v q : String) (h : k ≠ q) :
    ∀ d : List (String × String), dictGet (d ++ [(k, v)]) q = dictGet d q := by
  intro d
  induction d with
  | nil => simp [dictGet, h]
  | cons p ps ih =>
    by_cases hp : p.1 = q <;> simp [dictGet, hp, ih]

theorem dictGet_dictInsert_ne (d : List (String × String)) (k v q : String) (h : k ≠ q) :
    dictGet (dictInsert d k v) q = dictGet d q := by
  unfold dictInsert
  split
  · exact dictGet_map_ne k v q h d
  · exact dictGet_append_single_ne k v q h d

theorem dictGet_dictUpdate_of_keys_ne (q : String) :
    ∀ (u d : List (String × String)), (∀ p ∈ u, p.1 ≠ q) →
      dictGet (dictUpdate d u) q = dictGet d q := by
  intro u
  induction u with
  | nil => intro d _; rfl
  | cons p ps ih =>
    intro d h
    have hstep : dictUpdate d (p :: ps) = dictUpdate (dictInsert d p.1 p.2) ps := rfl
    rw [hstep, ih (dictInsert d p.1 p.2) (fun x hx => h x (List.mem_cons_of_mem p hx)),
        dictGet_dictInsert_ne d p.1 p.2 q (h p (List.mem_cons_self p ps))]

theorem hasKey_of_dictGet_some (k v : String) :
    ∀ d : List (String × String), dictGet d k = some v → hasKey d k = true := by
  intro d
  induction d with
  | nil => intro h; simp [dictGet] at h
  | cons p ps ih =>
    intro h
    by_cases hp : p.1 = k
    · simp [hasKey, hp]
    · simp only [dictGet, hp, if_neg] at h
      simp [hasKey, hp, ih h]

/-!
Claim theorems.
-/

/-- **C9.** In `MdtSnowPark.get_session`, the merge of environment-derived
connection parameters into the caller-supplied dictionary only adds keys the
caller did not provide: any key the caller set keeps exactly the caller's
value after the merge. -/
theorem get_session_preserves_caller_params
    (connection_parameters env_params : List (String × String)) (k v : String)
    (h : dictGet connection_parameters k = some v) :
    dictGet (mergeEnvParams connection_parameters env_params) k = some v := by
  unfold mergeEnvParams
  rw [dictGet_dictUpdate_of_keys_ne k _ connection_parameters]
  · exact h
  · intro p hp hk
    have hmem := List.of_mem_filter hp
    rw [hk, hasKey_of_dictGet_some k v connection_parameters h] at hmem
    simp at hmem

/-- Witness for C9 on concrete dictionaries: the caller's `user` survives a
merge with environment parameters that also define `user`. -/
theorem get_session_preserves_caller_params_witness :
    dictGet (mergeEnvParams callerParams envParams) "user" = some "caller" :=
  get_session_preserves_caller_params callerParams envParams "user" "caller" (by decide)

/-- **C4.** Identifier resolution is a pure, deterministic function of
`(repoName, branch, relative path)`: at the family root the identifier is
`UPPER(repoName_branch)`, for a nested artifact it is
`UPPER(repoName_branch_path)` with separators replaced by underscores, and
identical inputs resolve to identical identifiers. -/
theorem name_resolution_formula (repo branch rel repo2 branch2 rel2 : String) :
    (rel = "." → appName repo branch rel = pyUpper (repo ++ "_" ++ branch))
  ∧ (rel ≠ "." →
      appName repo branch rel = pyUpper (repo ++ "_" ++ branch ++ "_" ++ sepToUnderscore rel))
  ∧ (repo = repo2 → branch = branch2 → rel = rel2 →
      appName repo branch rel = appName repo2 branch2 rel2) := by
  refine ⟨fun h => ?_, fun h => ?_, fun h1 h2 h3 => ?_⟩
  · simp [appName, h]
  · simp [appName, h]
  · rw [h1, h2, h3]

/-- Witness for C4 at concrete inputs: a root artifact and a nested artifact. -/
theorem name_resolution_formula_witness :
    appName "proj" "main" "." = pyUpper ("proj" ++ "_" ++ "main")
  ∧ appName "proj" "main" "a/b" =
      pyUpper ("proj" ++ "_" ++ "main" ++ "_" ++ sepToUnderscore "a/b")
  ∧ appName "proj" "main" "a/b" = appName "proj" "main" "a/b" :=
  ⟨(name_resolution_formula "proj" "main" "." "proj" "main" ".").1 rfl,
   (name_resolution_formula "proj" "main" "a/b" "proj" "main" "a/b").2.1 (by decide),
   (name_resolution_formula "proj" "main" "a/b" "proj" "main" "a/b").2.2 rfl rfl rfl⟩

/-- **C10.** `MdtEnvironment.detect_environment` is total and always returns
one of the six documented strings; the `databricks` result is unreachable
because `on_databricks` returns `None`, so any state that is neither a
Snowflake container nor a Snowflake warehouse is reported as `local`. -/
theorem detect_environment_total_no_databricks (s : SysState) :
    detectEnvironment s ∈
      ["snowflake_container_services", "snowflake_container_runtime",
       "snowflake_warehouse_streamlit", "snowflake_warehouse", "databricks", "local"]
  ∧ detectEnvironment s ≠ "databricks"
  ∧ (onSnowflakeContainer s = false → onSnowflakeWarehouse s = false →
      detectEnvironment s = "local") := by
  refine ⟨?_, ?_, fun h1 h2 => ?_⟩
  · unfold detectEnvironment
    split_ifs <;> simp
  · unfold detectEnvironment onDatabricks pyTruthy
    split_ifs <;> first | decide | simp_all
  · simp [detectEnvironment, h1, h2, onDatabricks, pyTruthy]

/-- Witness for C10: a plain workstation state is reported as `local`. -/
theorem detect_environment_total_no_databricks_witness :
    detectEnvironment plainState = "local" :=
  (detect_environment_total_no_databricks plainState).2.2 (by decide) (by decide)

/-- **C5.** For an artifact classified as a container service, the renderer
emits exactly two statements in order: the unconditional drop-if-exists for
`identifier_SERVICE`, then the create-service statement whose specification
embeds the image path built from `LOWER(identifier)_image`, the image
repository and the database, with the exposed public port, the role-scoped
endpoint grant, and the pool/instances/warehouse parameters fixed by the
`csPart1`/`csPart2` template text. -/
theorem container_service_render (ctx : Ctx) (e : DirEntry)
    (hd : "Dockerfile" ∈ e.files)
    (hp : ctx.computePool ≠ "") (hr : ctx.imageRepo ≠ "") :
    deployFileStmts ctx e "main.py" =
      [dropServiceStmt ctx (appName ctx.repoName ctx.branch e.relToRoot ++ "_SERVICE"),
       createServiceStmt ctx (appName ctx.repoName ctx.branch e.relToRoot ++ "_SERVICE")
         (pyLower (appName ctx.repoName ctx.branch e.relToRoot) ++ "_image")]
  ∧ snowFileStmts ctx e "streamlit_app.py" =
      [dropServiceStmt ctx (appName ctx.repoName ctx.branch e.relToRoot ++ "_SERVICE"),
       createServiceStmt ctx (appName ctx.repoName ctx.branch e.relToRoot ++ "_SERVICE")
         (pyLower (appName ctx.repoName ctx.branch e.relToRoot) ++ "_image")]
  ∧ (∀ s : String, dropServiceStmt ctx s =
      "DROP SERVICE IF EXISTS \"" ++ ctx.database ++ "\".\"" ++ ctx.schema ++
        "\".\"" ++ s ++ "\";")
  ∧ (∀ s i : String, createServiceStmt ctx s i = csPart1 ctx s ++ imagePath ctx i ++ csPart2 ctx)
  ∧ (∀ i : String, imagePath ctx i =
      "/" ++ ctx.database ++ "/IMAGE_REPO/" ++ ctx.imageRepo ++ "/" ++ i ++ ":latest") := by
  refine ⟨?_, ?_, fun s => rfl, fun s i => rfl, fun i => rfl⟩ <;>
    simp [deployFileStmts, snowFileStmts, hd, hp, hr]

/-- Witness for C5 at a concrete Dockerized app directory. -/
theorem container_service_render_witness :
    deployFileStmts ctxD entryD "main.py" =
      [dropServiceStmt ctxD (appName ctxD.repoName ctxD.branch entryD.relToRoot ++ "_SERVICE"),
       createServiceStmt ctxD (appName ctxD.repoName ctxD.branch entryD.relToRoot ++ "_SERVICE")
         (pyLower (appName ctxD.repoName ctxD.branch entryD.relToRoot) ++ "_image")] :=
  (container_service_render ctxD entryD (by decide) (by decide) (by decide)).1

/-- **C2 (amended).** Classification precedence for a directory holding an
app entry file and a container descriptor: in the Snow variant, with both
`computePool` and `imageRepository` set the artifact becomes a container
service, and with either one missing it degrades to a native Streamlit app
(when the entry file is non-empty); in the Deploy variant a missing
`imageRepository` yields no statement at all — there is no native fallback. -/
theorem classification_precedence (ctx : Ctx) (e : DirEntry)
    (hd : "Dockerfile" ∈ e.files) :
    (ctx.computePool ≠ "" → ctx.imageRepo ≠ "" →
      snowFileStmts ctx e "streamlit_app.py" =
        [dropServiceStmt ctx (appName ctx.repoName ctx.branch e.relToRoot ++ "_SERVICE"),
         createServiceStmt ctx (appName ctx.repoName ctx.branch e.relToRoot ++ "_SERVICE")
           (pyLower (appName ctx.repoName ctx.branch e.relToRoot) ++ "_image")])
  ∧ (ctx.imageRepo = "" → 0 < e.entrySize →
      snowFileStmts ctx e "streamlit_app.py" =
        [streamlitStmt ctx e.relToCwd (appName ctx.repoName ctx.branch e.relToRoot)])
  ∧ (ctx.computePool = "" → 0 < e.entrySize →
      snowFileStmts ctx e "streamlit_app.py" =
        [streamlitStmt ctx e.relToCwd (appName ctx.repoName ctx.branch e.relToRoot)])
  ∧ (ctx.imageRepo = "" → deployFileStmts ctx e "main.py" = []) := by
  refine ⟨fun h1 h2 => ?_, fun h1 h2 => ?_, fun h1 h2 => ?_, fun h1 => ?_⟩
  · simp [snowFileStmts, hd, h1, h2]
  · simp [snowFileStmts, hd, h1, h2]
  · simp [snowFileStmts, hd, h1, h2]
  · simp [deployFileStmts, h1]

/-- Counterexample for C2 as frozen: in the Deploy variant, a directory with
`main.py`, a `Dockerfile` and a non-empty entry file produces no app
statement at all when `imageRepository` is absent — the plan holds only the
setup and execute sections, with no native web-app create statement. -/
theorem degrade_missing_repo_cx :
    appScanStmts (deployFileStmts ctxNR) treeD = []
  ∧ deployGenerate ctxNR treeD = deployUseLines ctxNR ++ deployExecuteStmts ctxNR :=
  ⟨rfl, rfl⟩

/-- Witness for C2 (amended) at concrete inputs: container service with full
context, native degrade in the Snow variant, skip in the Deploy variant. -/
theorem classification_precedence_witness :
    snowFileStmts ctxS entryD "streamlit_app.py" =
      [dropServiceStmt ctxS (appName ctxS.repoName ctxS.branch entryD.relToRoot ++ "_SERVICE"),
       createServiceStmt ctxS (appName ctxS.repoName ctxS.branch entryD.relToRoot ++ "_SERVICE")
         (pyLower (appName ctxS.repoName ctxS.branch entryD.relToRoot) ++ "_image")]
  ∧ snowFileStmts ctxSNR entryD "streamlit_app.py" =
      [streamlitStmt ctxSNR entryD.relToCwd (appName ctxSNR.repoName ctxSNR.branch entryD.relToRoot)]
  ∧ deployFileStmts ctxNR entryD "main.py" = [] :=
  ⟨(classification_precedence ctxS entryD (by decide)).1 (by decide) (by decide),
   (classification_precedence ctxSNR entryD (by decide)).2.1 (by decide) (by decide),
   (classification_precedence ctxNR entryD (by decide)).2.2.2 (by decide)⟩

/-- **C6.** A zero-byte app entry file with no container descriptor (or with
container classification unavailable because `computePool` or
`imageRepository` is missing) produces no statement in either variant; it is
silently skipped, never an error (both classifiers are total functions into
statement lists). -/
theorem zero_byte_entry_skipped (ctx : Ctx) (e : DirEntry) (hsize : e.entrySize = 0) :
    ("Dockerfile" ∉ e.files → snowFileStmts ctx e "streamlit_app.py" = [])
  ∧ (ctx.imageRepo = "" → snowFileStmts ctx e "streamlit_app.py" = [])
  ∧ (ctx.computePool = "" → snowFileStmts ctx e "streamlit_app.py" = [])
  ∧ ("Dockerfile" ∉ e.files → deployFileStmts ctx e "main.py" = []) := by
  refine ⟨fun h => ?_, fun h => ?_, fun h => ?_, fun h => ?_⟩
  · simp [snowFileStmts, h, hsize]
  · simp [snowFileStmts, h, hsize]
  · simp [snowFileStmts, h, hsize]
  · simp [deployFileStmts, h]

/-- Witness for C6: a concrete zero-byte `streamlit_app.py` with no
`Dockerfile` yields no statement in either variant. -/
theorem zero_byte_entry_skipped_witness :
    snowFileStmts ctxS entryZero "streamlit_app.py" = []
  ∧ deployFileStmts ctxS entryZero "main.py" = [] :=
  ⟨(zero_byte_entry_skipped ctxS entryZero rfl).1 (by decide),
   (zero_byte_entry_skipped ctxS entryZero rfl).2.2.2 (by decide)⟩

/-- **C1 (amended).** Identifier collisions are not detected: when two
discovered Dockerized app directories resolve to the same identifier, the
Deploy variant raises no error and emits the drop/create statement pairs of
BOTH artifacts under that one identifier, back to back in the plan. -/
theorem collision_no_error_both_emitted (ctx : Ctx) (t : AppTree) (e1 e2 : DirEntry)
    (hw : t.walk = [e1, e2]) (hroot : t.rootExists = true)
    (h1 : e1.files = ["main.py", "Dockerfile"]) (h2 : e2.files = ["main.py", "Dockerfile"])
    (hp : ctx.computePool ≠ "") (hr : ctx.imageRepo ≠ "")
    (hcol : appName ctx.repoName ctx.branch e2.relToRoot =
      appName ctx.repoName ctx.branch e1.relToRoot) :
    deployGenerate ctx t =
      deployUseLines ctx ++
        ([dropServiceStmt ctx (appName ctx.repoName ctx.branch e1.relToRoot ++ "_SERVICE"),
          createServiceStmt ctx (appName ctx.repoName ctx.branch e1.relToRoot ++ "_SERVICE")
            (pyLower (appName ctx.repoName ctx.branch e1.relToRoot) ++ "_image"),
          dropServiceStmt ctx (appName ctx.repoName ctx.branch e1.relToRoot ++ "_SERVICE"),
          createServiceStmt ctx (appName ctx.repoName ctx.branch e1.relToRoot ++ "_SERVICE")
            (pyLower (appName ctx.repoName ctx.branch e1.relToRoot) ++ "_image")] ++
          deployExecuteStmts ctx) := by
  have hne : ¬ (("Dockerfile" : String) = "main.py") := by decide
  simp [deployGenerate, appScanStmts, dirStmts, deployFileStmts, hw, hroot, h1, h2,
    hp, hr, hcol, hne]

/-- Counterexample for C1 as frozen: the colliding tree (`a/b` and `a_b`,
both resolving to `REPO_MAIN_A_B`) generates successfully — no error of any
kind — and the plan contains the drop statement for
`REPO_MAIN_A_B_SERVICE` twice, once per artifact. -/
theorem collision_both_emitted_cx :
    runDeploy envD treeCollide = Except.ok (deployGenerate ctxD treeCollide)
  ∧ (deployGenerate ctxD treeCollide).count (dropServiceStmt ctxD "REPO_MAIN_A_B_SERVICE") = 2 :=
  ⟨rfl, rfl⟩

/-- Witness for C1 (amended) at the concrete colliding tree. -/
theorem collision_no_error_both_emitted_witness :
    deployGenerate ctxD treeCollide =
      deployUseLines ctxD ++
        ([dropServiceStmt ctxD (appName ctxD.repoName ctxD.branch entryAB.relToRoot ++ "_SERVICE"),
          createServiceStmt ctxD (appName ctxD.repoName ctxD.branch entryAB.relToRoot ++ "_SERVICE")
            (pyLower (appName ctxD.repoName ctxD.branch entryAB.relToRoot) ++ "_image"),
          dropServiceStmt ctxD (appName ctxD.repoName ctxD.branch entryAB.relToRoot ++ "_SERVICE"),
          createServiceStmt ctxD (appName ctxD.repoName ctxD.branch entryAB.relToRoot ++ "_SERVICE")
            (pyLower (appName ctxD.repoName ctxD.branch entryAB.relToRoot) ++ "_image")] ++
          deployExecuteStmts ctxD) :=
  collision_no_error_both_emitted ctxD treeCollide entryAB entryA_B rfl rfl rfl rfl
    (by decide) (by decide) (by decide)

/-- **C3 (amended).** On an empty source tree the Snow variant's plan is
exactly its Setup statements; the Deploy variant's plan is its Setup
statements followed by the two Execute statements of its hardcoded
`execute_list`, which is never empty — so its plan is never just Setup. -/
theorem empty_tree_plan (ctx : Ctx) :
    snowGenerate ctx [] emptyTree = snowUseLines ctx
  ∧ snowGenerate ctx [] ⟨true, []⟩ = snowUseLines ctx
  ∧ deployGenerate ctx emptyTree = deployUseLines ctx ++ deployExecuteStmts ctx
  ∧ deployGenerate ctx ⟨true, []⟩ = deployUseLines ctx ++ deployExecuteStmts ctx
  ∧ deployExecuteStmts ctx ≠ [] := by
  refine ⟨?_, ?_, ?_, ?_, ?_⟩
  · simp [snowGenerate, snowNbStmts, appScanStmts, emptyTree]
  · simp [snowGenerate, snowNbStmts, appScanStmts]
  · simp [deployGenerate, appScanStmts, emptyTree]
  · simp [deployGenerate, appScanStmts]
  · simp [deployExecuteStmts]

/-- Counterexample for C3 as frozen: on an empty tree the Deploy variant's
plan is NOT exactly the Setup statements — it additionally carries the two
hardcoded Execute statements. -/
theorem empty_tree_execute_cx :
    deployGenerate ctxD emptyTree ≠ deployUseLines ctxD
  ∧ deployGenerate ctxD emptyTree = deployUseLines ctxD ++ deployExecuteStmts ctxD := by
  refine ⟨fun h => ?_, rfl⟩
  have hl := congrArg List.length h
  exact absurd hl (by decide)

theorem buildDeployCtx_error (env : String → Option String)
    (h : env "DEPLOY_DB" = none ∨ env "DEPLOY_SCHEMA" = none ∨ env "REPO_NAME" = none ∨
         env "BUILD_SOURCEBRANCHNAME" = none ∨ env "WAREHOUSE" = none) :
    ∃ e, buildDeployCtx env = Except.error e := by
  cases h1 : env "DEPLOY_DB" <;> cases h2 : env "DEPLOY_SCHEMA" <;>
    cases h3 : env "REPO_NAME" <;> cases h4 : env "BUILD_SOURCEBRANCHNAME" <;>
      cases h5 : env "WAREHOUSE" <;>
        simp_all [buildDeployCtx, requireVar, except_bind_error, except_bind_ok]

theorem buildSnowCtx_error (env : String → Option String)
    (h : env "DEPLOY_DB" = none ∨ env "DEPLOY_SCHEMA" = none ∨ env "REPO_NAME" = none ∨
         env "BUILD_SOURCEBRANCHNAME" = none ∨ env "WAREHOUSE" = none) :
    ∃ e, buildSnowCtx env = Except.error e := by
  cases h1 : env "DEPLOY_DB" <;> cases h2 : env "DEPLOY_SCHEMA" <;>
    cases h3 : env "REPO_NAME" <;> cases h4 : env "BUILD_SOURCEBRANCHNAME" <;>
      cases h5 : env "WAREHOUSE" <;>
        simp_all [buildSnowCtx, requireVar, except_bind_error, except_bind_ok]

/-- **C7.** If any of the five mandatory configuration variables is absent
from the environment, both scripts fail (the plan is an `Except.error`, i.e.
the Python `KeyError` kills the process with a non-zero exit before any
output is written), and the failing result does not depend on the scanned
tree at all — the failure happens before any directory scanning. -/
theorem missing_config_fatal (env : String → Option String)
    (apps apps2 : AppTree) (nbw nbw2 : List NbEntry)
    (h : env "DEPLOY_DB" = none ∨ env "DEPLOY_SCHEMA" = none ∨ env "REPO_NAME" = none ∨
         env "BUILD_SOURCEBRANCHNAME" = none ∨ env "WAREHOUSE" = none) :
    (∃ e, runDeploy env apps = Except.error e)
  ∧ runDeploy env apps = runDeploy env apps2
  ∧ (∃ e, runSnow env nbw apps = Except.error e)
  ∧ runSnow env nbw apps = runSnow env nbw2 apps2 := by
  obtain ⟨e1, he1⟩ := buildDeployCtx_error env h
  obtain ⟨e2, he2⟩ := buildSnowCtx_error env h
  refine ⟨⟨e1, ?_⟩, ?_, ⟨e2, ?_⟩, ?_⟩ <;>
    simp [runDeploy, runSnow, he1, he2, except_bind_error]

/-- Witness for C7: with an empty environment both scripts fail, with a
result independent of the tree. -/
theorem missing_config_fatal_witness :
    (∃ e, runDeploy envNone emptyTree = Except.error e)
  ∧ runDeploy envNone emptyTree = runDeploy envNone treeD
  ∧ (∃ e, runSnow envNone [] emptyTree = Except.error e)
  ∧ runSnow envNone [] emptyTree = runSnow envNone [] treeD :=
  missing_config_fatal envNone emptyTree treeD [] [] (Or.inl rfl)

theorem eaiClause_nonempty_value (eais : List String) (h : eais ≠ []) :
    ∃ v, eaiClause eais = "  EXTERNAL_ACCESS_INTEGRATIONS = (" ++ v ++ ")\n" ∧ v ≠ "" := by
  cases eais with
  | nil => exact absurd rfl h
  | cons e es =>
    refine ⟨pyJoin ", " ((e :: es).map fun x => "\x27" ++ x ++ "\x27"), ?_, ?_⟩
    · simp [eaiClause]
    · cases es with
      | nil =>
        intro hv
        have hd := congrArg String.data hv
        simp [pyJoin, String.data_append,
          show ("\x27" : String).data = ['\x27'] from rfl,
          show ("" : String).data = [] from rfl] at hd
      | cons f fs =>
        intro hv
        have hd := congrArg String.data hv
        simp [pyJoin, String.data_append,
          show ("\x27" : String).data = ['\x27'] from rfl,
          show ("" : String).data = [] from rfl] at hd

/-- **C8.** Optional clauses of an execute statement: with an empty
integration list the rendered text is exactly the statement without any
EXTERNAL_ACCESS_INTEGRATIONS clause, and with an empty argument string it is
exactly the statement without any ARGUMENTS clause; when present, the
integration clause always carries a non-empty value list and the arguments
clause carries the argument string — neither clause is ever rendered with an
empty value. -/
theorem execute_optional_clauses (ctx : Ctx) (nb cp rt arguments : String)
    (eais : List String) :
    renderExecute ctx nb cp rt [] arguments =
      executeBody ctx nb cp rt ++ argsClause arguments ++ ";\n"
  ∧ renderExecute ctx nb cp rt eais "" =
      executeBody ctx nb cp rt ++ eaiClause eais ++ ";\n"
  ∧ eaiClause [] = ""
  ∧ argsClause "" = ""
  ∧ (eais ≠ [] →
      ∃ v, eaiClause eais = "  EXTERNAL_ACCESS_INTEGRATIONS = (" ++ v ++ ")\n" ∧ v ≠ "")
  ∧ (arguments ≠ "" →
      argsClause arguments = "  ARGUMENTS = \x27" ++ arguments ++ "\x27\n") := by
  refine ⟨?_, ?_, rfl, rfl, eaiClause_nonempty_value eais, fun h => ?_⟩
  · simp [renderExecute, eaiClause]
  · simp [renderExecute, argsClause]
  · simp [argsClause, h]

/-- Witness for C8 at concrete inputs. -/
theorem execute_optional_clauses_witness :
    renderExecute ctxD "nb" "cp" "rt" [] "xyz" =
      executeBody ctxD "nb" "cp" "rt" ++ argsClause "xyz" ++ ";\n"
  ∧ (∃ v, eaiClause ["EAI1"] = "  EXTERNAL_ACCESS_INTEGRATIONS = (" ++ v ++ ")\n" ∧ v ≠ "")
  ∧ argsClause "xyz" = "  ARGUMENTS = \x27" ++ "xyz" ++ "\x27\n" :=
  ⟨(execute_optional_clauses ctxD "nb" "cp" "rt" "xyz" ["EAI1"]).1,
   (execute_optional_clauses ctxD "nb" "cp" "rt" "xyz" ["EAI1"]).2.2.2.2.1 (by decide),
   (execute_optional_clauses ctxD "nb" "cp" "rt" "xyz" ["EAI1"]).2.2.2.2.2 (by decide)⟩
